import Mathlib

/-!
Shallow embedding of the core of `Reagent_Qr_Manager.py`: code generation
(`generate_code`), the reagent store (`save_reagent` over the SQLite schema of
`init_db`), the camera capture dialog (`QRCameraDialog`), the payload scan of
`search_by_qr`, and — modelled from the spec where the repository has no source
— the usage ledger (`record_usage`) and the QR symbol codec.

Machine-level conventions: SQLite rows become Lean structures, a database
becomes explicit lists threaded through each operation, and Python string
operations (`strip`, `split`, `startswith`, `f"{n:03d}"`) are re-implemented
over `List Char` by structural recursion so that every definition evaluates
inside the kernel.
-/

namespace ReagentQr

/-! ### Decimal formatting: Python `f"{n:03d}"` -/

/-- Little-endian decimal digits of `n`, computed with `n` itself as fuel so
that the definition is structurally recursive and kernel-evaluable. -/
def decAux : Nat → Nat → List Nat
  | 0, _ => []
  | fuel + 1, n => if n = 0 then [] else (n % 10) :: decAux fuel (n / 10)

/-- Little-endian decimal digits of `n` (empty for `n = 0`). -/
def decDigitsRev (n : Nat) : List Nat := decAux n n

/-- Big-endian decimal digits of `n`, with `0` rendered as the single digit
`0`, exactly the digit string Python's `str(n)` prints. -/
def decimalDigits (n : Nat) : List Nat :=
  if n = 0 then [0] else (decDigitsRev n).reverse

/-- The ASCII character for a decimal digit value. -/
def digitChar (d : Nat) : Char := Char.ofNat (48 + d)

/-- Python's `f"{n:03d}"`: the decimal digit string of `n`, left-padded with
zeros to a minimum width of 3 (wider numbers keep all their digits). -/
def format03 (n : Nat) : String :=
  String.mk ((List.replicate (3 - (decimalDigits n).length) 0
      ++ decimalDigits n).map digitChar)

/-- Big-endian Horner evaluation of a digit list. -/
def valBE (l : List Nat) : Nat := l.foldl (fun a d => 10 * a + d) 0

/-- Numeric value read back from a string of ASCII digit characters. -/
def parseDigitChars (cs : List Char) : Nat :=
  cs.foldl (fun a c => 10 * a + (c.toNat - 48)) 0

/-! ### Python string helpers, re-implemented structurally over `List Char` -/

/-- Python `str.strip()` on a character list: drop whitespace from both ends. -/
def stripChars (cs : List Char) : List Char :=
  ((cs.dropWhile Char.isWhitespace).reverse.dropWhile Char.isWhitespace).reverse

/-- Python `str.strip()`. -/
def pyStrip (s : String) : String := String.mk (stripChars s.data)

/-- Python `payload.split(sep)` for a one-character separator: split at every
occurrence, keeping empty pieces (so the result is never empty). -/
def splitOnChar (sep : Char) : List Char → List (List Char)
  | [] => [[]]
  | c :: rest =>
    if c = sep then [] :: splitOnChar sep rest
    else
      match splitOnChar sep rest with
      | [] => [[c]]
      | l :: ls => (c :: l) :: ls

/-- The characters after the first occurrence of `:`, or `none` when the line
contains no colon. -/
def afterColonOnce : List Char → Option (List Char)
  | [] => none
  | c :: rest => if c = ':' then some rest else afterColonOnce rest

/-- Python `line.split(":", 1)[-1]`: everything after the first colon, or the
whole line when there is no colon. -/
def splitColonLast (line : List Char) : List Char :=
  match afterColonOnce line with
  | some rest => rest
  | none => line

/-! ### Data model (`init_db` schema of `Reagent_Qr_Manager.py`) -/

/-- A row of the `reagents` table: `name TEXT, code TEXT UNIQUE, location
TEXT, qr_image BLOB` (the AUTOINCREMENT id is the position in the list). -/
structure Reagent where
  name : String
  code : String
  location : String
  qrImage : List Nat
deriving DecidableEq

/-- A row of the `usage_history` table: `reagent_code TEXT, user TEXT,
used_date TEXT`. -/
structure UsageEvent where
  reagent_code : String
  user : String
  used_date : String
deriving DecidableEq

/-- The database state. `reagents` and `usage` mirror the two tables created
by `init_db`; `users` is the deduplicated user pick-list that the spec's store
carries (the source declares no `users` table — see `record_usage`). -/
structure DB where
  reagents : List Reagent
  usage : List UsageEvent
  users : List String
deriving DecidableEq

/-- The `WHERE code LIKE 'today%'` filter of `generate_code`: the date string
(digits only, so `LIKE` is plain prefix matching) begins the stored code. -/
def codeMatchesDate (today : String) (r : Reagent) : Bool :=
  today.data.isPrefixOf r.code.data

/-- Embedding of `generate_code()`: count the reagent rows whose code starts
with today's date and return `f"{today}-{count+1:03d}"`.  The current date is
an explicit parameter (the Python reads the wall clock); the database is
returned unchanged — the body runs a single `SELECT COUNT(*)`. -/
def generate_code (today : String) (db : DB) : String × DB :=
  let count := (db.reagents.filter (codeMatchesDate today)).length + 1
  (today ++ "-" ++ format03 count, db)

/-- Outcome of `ReagentManager.save_reagent`: success, the
`sqlite3.IntegrityError` branch (duplicate `code` under the UNIQUE
constraint), or the early return on a missing name / missing generated
code. -/
inductive SaveResult
  | ok
  | duplicate
  | missingInput
deriving DecidableEq

/-- Embedding of `ReagentManager.save_reagent`: strip the entered name, bail
out when the name or the pending code is falsy (`if not name or not
self.current_code`), otherwise `INSERT INTO reagents` — which SQLite rejects
with `IntegrityError` exactly when a row with the same code already exists,
leaving the database untouched. -/
def save_reagent (rawName location : String) (current_code : Option String)
    (current_qr_bytes : List Nat) (db : DB) : SaveResult × DB :=
  let name := pyStrip rawName
  let code := current_code.getD ""
  if name = "" ∨ code = "" then (.missingInput, db)
  else if db.reagents.any (fun r => r.code = code) then (.duplicate, db)
  else (.ok, { db with reagents := db.reagents ++
    [{ name := name, code := code, location := location, qrImage := current_qr_bytes }] })

/-- Outcome of the usage-ledger insertion. -/
inductive UsageResult
  | ok
  | unknownReagent
deriving DecidableEq

/-- Modelled from the spec: the repository's source has no `record_usage`
operation and no `users` table (under `src/` only the `usage_history` table
declaration in `init_db` exists).  Spec §4.5: `record_usage(code, user, date)
-> Ok | UnknownReagent` verifies that `code` resolves via the Reagent Store
before inserting; on success it appends one usage row and upserts `user` into
the User dedup list (insert-if-absent, not insert-or-update); no other
mutation occurs. -/
def record_usage (code user date : String) (db : DB) : UsageResult × DB :=
  if db.reagents.any (fun r => r.code = code) then
    (.ok, { db with
      usage := db.usage ++ [{ reagent_code := code, user := user, used_date := date }],
      users := if user ∈ db.users then db.users else db.users ++ [user] })
  else (.unknownReagent, db)

/-! ### Capture session (`QRCameraDialog`) -/

/-- Dialog lifecycle: still running, or closed via `accept()` / `reject()`. -/
inductive DialogStatus
  | running
  | accepted
  | rejected
deriving DecidableEq

/-- Observable state of one `QRCameraDialog`: whether `self.cap` is open,
whether the 30 ms `QTimer` is active, the `qr_payload` attribute, the dialog
result, and how many times `cap.release()` has actually been called. -/
structure CamState where
  deviceOpen : Bool
  timerActive : Bool
  qr_payload : Option String
  status : DialogStatus
  releaseCount : Nat
deriving DecidableEq

/-- Embedding of `QRCameraDialog.closeEvent`: release the capture device only
when it is still open (`if self.cap.isOpened(): self.cap.release()`), then
stop the timer.  `releaseCount` counts the actual `release()` calls. -/
def closeEvent (s : CamState) : CamState :=
  { s with deviceOpen := false
           timerActive := false
           releaseCount := if s.deviceOpen then s.releaseCount + 1 else s.releaseCount }

/-- The dialog's `accept()`: record the accepted result and close the window,
which delivers the close event (Qt's `done` closes the widget). -/
def acceptDialog (s : CamState) : CamState :=
  closeEvent { s with status := .accepted }

/-- The dialog's `reject()`: record the rejected result and close the window,
which delivers the close event. -/
def rejectDialog (s : CamState) : CamState :=
  closeEvent { s with status := .rejected }

/-- Embedding of `QRCameraDialog.keyPressEvent`: Escape rejects the dialog,
every other key is passed through unchanged. -/
def keyPressEvent (isEscape : Bool) (s : CamState) : CamState :=
  if isEscape then rejectDialog s else s

/-- One camera tick's input: the `ok` flag of `cap.read()` and the payloads
`pyzbar.decode` finds in the frame, in detection order. -/
structure Frame where
  ok : Bool
  decoded : List String
deriving DecidableEq

/-- Embedding of `QRCameraDialog.next_frame`: a failed read returns at once;
otherwise the frame is rendered for preview (no model state) and decoded, and
a non-empty decode stores `decoded[0]` in `qr_payload` and accepts the
dialog. -/
def next_frame (f : Frame) (s : CamState) : CamState :=
  if f.ok = false then s
  else
    match f.decoded with
    | [] => s
    | p :: _ => acceptDialog { s with qr_payload := some p }

/-- The timer cadence: frames are delivered one per tick, and only while the
timer is active. -/
def runFrames (fs : List Frame) (s : CamState) : CamState :=
  match fs with
  | [] => s
  | f :: rest => if s.timerActive then runFrames rest (next_frame f s) else s

/-- The state right after a successful `QRCameraDialog.__init__`: device open,
timer started at 30 ms, no payload yet. -/
def initialCam : CamState :=
  { deviceOpen := true, timerActive := true, qr_payload := none,
    status := .running, releaseCount := 0 }

/-- Embedding of `QRCameraDialog.__init__`: open the default capture device;
when `isOpened()` is false, raise `RuntimeError("カメラを開けませんでした")`
before the timer is ever created, so a failed open yields no session state at
all.  `cameraOpens` stands for the device being present and free. -/
def initSession (cameraOpens : Bool) : Except String CamState :=
  if cameraOpens then .ok initialCam
  else .error "カメラを開けませんでした"

/-! ### Payload scan of `ReagentManager.search_by_qr` -/

/-- The recognized code marker: the line must start with `管理番号`. -/
def codeMarker : List Char := "管理番号".data

/-- The `for line in payload.split("\n")` loop body: on the first line that
`startswith("管理番号")`, take `line.split(":", 1)[-1].strip()` and stop;
`none` when no line matches (the 「管理番号を含む QR ではありませんでした。」
branch). -/
def findCodeLine : List (List Char) → Option String
  | [] => none
  | line :: rest =>
    if codeMarker.isPrefixOf line then some (String.mk (stripChars (splitColonLast line)))
    else findCodeLine rest

/-- The code the scan loop of `search_by_qr` extracts from a decoded payload,
`none` when the payload is reported as not carrying a 管理番号 line. -/
def extractCode (payload : String) : Option String :=
  findCodeLine (splitOnChar '\n' payload.data)

/-- The extraction rule in the words of the claim under scrutiny: the code
taken is the text after the first colon of the first line starting with the
marker — nothing (the empty string) when that line has no colon, and with no
whitespace trimming.  Kept separate from `extractCode`, which embeds the
source, so the two can be compared. -/
def claimExtractCode (payload : String) : Option String :=
  match (splitOnChar '\n' payload.data).find? (fun line => codeMarker.isPrefixOf line) with
  | some line => some (String.mk ((afterColonOnce line).getD []))
  | none => none

/-- Outcome of `ReagentManager.search_by_qr`. -/
inductive QrSearchOutcome
  | cameraError (msg : String)
  | searched (code : String)
  | unrecognized
  | noResult
deriving DecidableEq

/-- Embedding of `ReagentManager.search_by_qr`: a `RuntimeError` from the
dialog constructor is caught and reported as a camera error; then, only when
the dialog was accepted and `dlg.qr_payload` is truthy, the payload is
scanned: the first 管理番号 line's code is fed to the history search, and a
payload with no such line reports the unrecognized-symbol message. -/
def search_by_qr (cameraOpens accepted : Bool) (payload : Option String) : QrSearchOutcome :=
  if cameraOpens = false then .cameraError "カメラを開けませんでした"
  else if accepted ∧ payload.getD "" ≠ "" then
    match extractCode (payload.getD "") with
    | some code => .searched code
    | none => .unrecognized
  else .noResult

/-! ### Symbol codec -/

/-- The low `w` bits of `n`, least significant first. -/
def natToBits : Nat → Nat → List Bool
  | 0, _ => []
  | w + 1, n => decide (n % 2 = 1) :: natToBits w (n / 2)

/-- Numeric value of a little-endian bit row. -/
def bitsToNat : List Bool → Nat
  | [] => 0
  | b :: bs => (if b then 1 else 0) + 2 * bitsToNat bs

/-- One module row per character: its code point in 21 bits (every Unicode
scalar value is below `2^21`). -/
def charRow (c : Char) : List Bool := natToBits 21 c.toNat

/-- The fixed finder pattern that marks a well-formed symbol. -/
def finderRow : List Bool := [true, true, true, false, true, true, true]

/-- A black-and-white module matrix. -/
structure SymbolImage where
  rows : List (List Bool)
deriving DecidableEq

/-- Modelled from the spec: the source encodes through the external `qrcode`
library (`ReagentManager.generate_qr` passes exactly the caller-supplied text
to `qr.add_data` at fixed settings), whose implementation is not in the
repository.  Spec §4.2: `encode(payload)` deterministically renders the
payload — and nothing else, no injected metadata — as a module matrix. -/
def encode (payload : String) : SymbolImage :=
  { rows := finderRow :: payload.data.map charRow }

/-- Modelled from the spec: the source decodes through the external `pyzbar`
library (`QRCameraDialog.next_frame` calls `decode(frame)`), whose
implementation is not in the repository.  Spec §4.2: `decode(frame)` returns
the sequence of payloads of the QR symbols found in the frame — here the
single carried payload for a well-formed symbol, nothing otherwise. -/
def decode (img : SymbolImage) : List String :=
  match img.rows with
  | [] => []
  | f :: rest =>
    if f = finderRow then [String.mk (rest.map (fun row => Char.ofNat (bitsToNat row)))]
    else []

/-! ### Concrete states used by the witnesses -/

/-- A small concrete store: two reagents registered on 2024-06-15 and one on
2024-01-01. -/
def sampleDB : DB :=
  { reagents := [
      { name := "Acetone", code := "20240615-001", location := "冷蔵庫", qrImage := [1] },
      { name := "Ethanol", code := "20240615-002", location := "冷凍庫", qrImage := [2] },
      { name := "Salt", code := "20240101-001", location := "常温棚", qrImage := [3] }],
    usage := [], users := [] }

/-- A store holding 999 reagent rows whose codes all start with `20240615`. -/
def db999 : DB :=
  { reagents := List.replicate 999
      { name := "Acetone", code := "20240615-001", location := "冷蔵庫", qrImage := [] },
    usage := [], users := [] }

/-! ### Supporting lemmas -/

theorem decAux_eq (fuel n : Nat) (h : n ≤ fuel) : decAux fuel n = Nat.digits 10 n := by
  induction fuel generalizing n with
  | zero => interval_cases n; simp [decAux]
  | succ f ih =>
    by_cases hn : n = 0
    · simp [decAux, hn]
    · rw [decAux, if_neg hn, Nat.digits_def' (by norm_num : 1 < 10) (Nat.pos_of_ne_zero hn),
        ih (n / 10) (by omega)]

theorem decDigitsRev_eq (n : Nat) : decDigitsRev n = Nat.digits 10 n :=
  decAux_eq n n le_rfl

/-- Every digit produced by `decimalDigits` is below 10. -/
theorem decimalDigits_lt (n d : Nat) (hd : d ∈ decimalDigits n) : d < 10 := by
  unfold decimalDigits at hd
  by_cases hn : n = 0
  · simp [hn] at hd
    omega
  · rw [if_neg hn, decDigitsRev_eq, List.mem_reverse] at hd
    exact Nat.digits_lt_base (by norm_num) hd

theorem foldl_valBE (l : List Nat) (a : Nat) :
    l.foldl (fun a d => 10 * a + d) a = a * 10 ^ l.length + valBE l := by
  induction l generalizing a with
  | nil => simp [valBE]
  | cons d l ih =>
    show l.foldl _ (10 * a + d) = _
    rw [ih (10 * a + d)]
    have hd : valBE (d :: l) = d * 10 ^ l.length + valBE l := by
      show l.foldl _ (10 * 0 + d) = _
      rw [ih (10 * 0 + d)]
      ring_nf
    rw [hd]
    simp [List.length_cons]
    ring

theorem valBE_replicate_zero (k : Nat) (l : List Nat) :
    valBE (List.replicate k 0 ++ l) = valBE l := by
  induction k with
  | zero => rfl
  | succ m ih =>
    show valBE (List.replicate (m + 1) 0 ++ l) = valBE l
    rw [List.replicate_succ]
    show (List.replicate m 0 ++ l).foldl _ (10 * 0 + 0) = _
    simpa [valBE] using ih

theorem valBE_reverse (l : List Nat) : valBE l.reverse = Nat.ofDigits 10 l := by
  induction l with
  | nil => simp [valBE, Nat.ofDigits_nil]
  | cons d l ih =>
    rw [List.reverse_cons]
    unfold valBE
    rw [List.foldl_append]
    show (10 * valBE l.reverse + d : Nat) = _
    rw [ih, Nat.ofDigits_cons]
    ring

theorem valBE_decimalDigits (n : Nat) : valBE (decimalDigits n) = n := by
  unfold decimalDigits
  by_cases hn : n = 0
  · simp [hn, valBE]
  · rw [if_neg hn, decDigitsRev_eq, valBE_reverse, Nat.ofDigits_digits]

theorem digitChar_toNat (d : Nat) (h : d < 10) : (digitChar d).toNat = 48 + d := by
  interval_cases d <;> decide

theorem parseDigitChars_map_aux (l : List Nat) (a : Nat) (hl : ∀ d ∈ l, d < 10) :
    (l.map digitChar).foldl (fun a c => 10 * a + (c.toNat - 48)) a =
      l.foldl (fun a d => 10 * a + d) a := by
  induction l generalizing a with
  | nil => rfl
  | cons d l ih =>
    show (l.map digitChar).foldl _ (10 * a + ((digitChar d).toNat - 48)) = _
    rw [digitChar_toNat d (hl d (by simp)), Nat.add_sub_cancel_left]
    exact ih _ (fun x hx => hl x (by simp [hx]))

theorem parseDigitChars_map (l : List Nat) (hl : ∀ d ∈ l, d < 10) :
    parseDigitChars (l.map digitChar) = valBE l :=
  parseDigitChars_map_aux l 0 hl

/-- Reading the digit characters of `format03 n` recovers `n`: the format
never loses information. -/
theorem parse_format03 (n : Nat) : parseDigitChars (format03 n).data = n := by
  show parseDigitChars ((List.replicate _ 0 ++ decimalDigits n).map digitChar) = n
  rw [parseDigitChars_map]
  · rw [valBE_replicate_zero, valBE_decimalDigits]
  · intro d hd
    rcases List.mem_append.mp hd with h | h
    · rw [List.eq_of_mem_replicate h]; omega
    · exact decimalDigits_lt n d h

theorem format03_injective (m n : Nat) (h : format03 m = format03 n) : m = n := by
  have := congrArg (fun s => parseDigitChars s.data) h
  simpa [parse_format03] using this

theorem format03_length (n : Nat) :
    (format03 n).length = 3 - (decimalDigits n).length + (decimalDigits n).length := by
  show ((List.replicate _ 0 ++ decimalDigits n).map digitChar).length = _
  simp

/-- At 1000 and beyond, the formatted sequence keeps all its digits: the field
widens past 3 characters instead of truncating. -/
theorem format03_length_of_ge (n : Nat) (h : 1000 ≤ n) : 4 ≤ (format03 n).length := by
  have hlen : 4 ≤ (decimalDigits n).length := by
    unfold decimalDigits
    rw [if_neg (by omega), decDigitsRev_eq, List.length_reverse,
      Nat.digits_len 10 n (by norm_num) (by omega)]
    have : 3 ≤ Nat.log 10 n := by
      rw [← Nat.pow_le_iff_le_log (by norm_num) (by omega)]
      omega
    omega
  rw [format03_length]
  omega

/-- Appending on the right of a fixed string is injective. -/
theorem string_append_right_inj (s t u : String) (h : s ++ t = s ++ u) : t = u := by
  have hd := congrArg String.data h
  rw [String.data_append, String.data_append] at hd
  exact String.ext (List.append_cancel_left hd)

/-- Filtering a constant list by a predicate the element satisfies keeps
everything. -/
theorem filter_replicate_of_pos {α : Type} (p : α → Bool) (n : Nat) (a : α)
    (h : p a = true) : (List.replicate n a).filter p = List.replicate n a := by
  induction n with
  | zero => rfl
  | succ m ih => rw [List.replicate_succ, List.filter_cons, h]; simp [ih]

theorem bitsToNat_natToBits (w n : Nat) (h : n < 2 ^ w) :
    bitsToNat (natToBits w n) = n := by
  induction w generalizing n with
  | zero =>
    interval_cases n
    rfl
  | succ v ih =>
    rw [natToBits, bitsToNat, ih (n / 2) (by omega)]
    rcases Nat.mod_two_eq_zero_or_one n with h2 | h2 <;> simp [h2] <;> omega

theorem char_toNat_lt (c : Char) : c.toNat < 2 ^ 21 := by
  have h := c.valid
  rcases h with h | ⟨_, h⟩ <;> simp [Char.toNat] <;> omega

theorem bitsToNat_charRow (c : Char) : bitsToNat (charRow c) = c.toNat :=
  bitsToNat_natToBits 21 c.toNat (char_toNat_lt c)

/-- The scan loop of `search_by_qr` is `List.find?` on the marker test
followed by the `split(":", 1)[-1].strip()` projection. -/
theorem findCodeLine_eq_find (ls : List (List Char)) :
    findCodeLine ls = (ls.find? (fun l => codeMarker.isPrefixOf l)).map
      (fun l => String.mk (stripChars (splitColonLast l))) := by
  induction ls with
  | nil => rfl
  | cons line rest ih =>
    by_cases h : codeMarker.isPrefixOf line
    · rw [findCodeLine, if_pos h, List.find?_cons_of_pos _ h]
      rfl
    · rw [findCodeLine, if_neg (by simpa using h),
        List.find?_cons_of_neg _ (by simpa using h), ih]

/-! ### Claim theorems -/

/-- C1: for every date `D` and every database state in which exactly `N`
reagent rows have a code beginning with the prefix `D`, `generate_code`
returns `D ++ "-" ++ (N+1 zero-padded to 3 digits)` and performs no mutation
of the store (the returned database is the input database). -/
theorem C1_generate_code_next (D : String) (db : DB) (N : Nat)
    (h : (db.reagents.filter (codeMatchesDate D)).length = N) :
    generate_code D db = (D ++ "-" ++ format03 (N + 1), db) := by
  simp [generate_code, h]

/-- Witness for C1: `sampleDB` has exactly 2 codes dated `20240615`, and the
generator yields `20240615-003` without touching the store. -/
theorem C1_generate_code_next_witness :
    generate_code "20240615" sampleDB = ("20240615-003", sampleDB) := by
  rw [C1_generate_code_next "20240615" sampleDB 2 (by decide)]
  decide

/-- C2: a registration attempt (non-empty name, pending code present) for a
code `C` already stored once is rejected as a duplicate, atomically — the
database afterwards is exactly the database before, so no row, blob, or other
table changed, and exactly one row with code `C` remains. -/
theorem C2_duplicate_rejected (rawName location C : String) (qr : List Nat) (db : DB)
    (hname : pyStrip rawName ≠ "") (hC : C ≠ "")
    (hdup : db.reagents.countP (fun r => r.code = C) = 1) :
    save_reagent rawName location (some C) qr db = (.duplicate, db) ∧
      (save_reagent rawName location (some C) qr db).2.reagents.countP
        (fun r => r.code = C) = 1 := by
  have hany : db.reagents.any (fun r => r.code = C) = true := by
    rw [List.any_eq_true]
    have hpos : 0 < db.reagents.countP (fun r => r.code = C) := by omega
    rw [List.countP_pos_iff] at hpos
    exact hpos
  have hres : save_reagent rawName location (some C) qr db = (.duplicate, db) := by
    simp [save_reagent, hname, hC, hany]
  exact ⟨hres, by rw [hres]; exact hdup⟩

/-- Witness for C2: re-registering `20240615-001` in `sampleDB` is rejected
and the store is unchanged, retaining exactly one row with that code. -/
theorem C2_duplicate_rejected_witness :
    save_reagent "New" "冷蔵庫" (some "20240615-001") [9] sampleDB = (.duplicate, sampleDB) ∧
      (save_reagent "New" "冷蔵庫" (some "20240615-001") [9] sampleDB).2.reagents.countP
        (fun r => r.code = "20240615-001") = 1 :=
  C2_duplicate_rejected "New" "冷蔵庫" "20240615-001" [9] sampleDB
    (by decide) (by decide) (by decide)

/-- C3: `record_usage` on a code with no matching reagent returns
`unknownReagent` and leaves the database — in particular the usage ledger —
untouched; on a code that resolves it returns `ok`, appends exactly one usage
row, leaves the reagent table unchanged, and upserts the user insert-if-absent
into the deduplicated user list (which stays duplicate-free). -/
theorem C3_record_usage_spec (code user date : String) (db : DB) :
    (db.reagents.any (fun r => r.code = code) = false →
      record_usage code user date db = (.unknownReagent, db)) ∧
    (db.reagents.any (fun r => r.code = code) = true →
      (record_usage code user date db).1 = .ok ∧
      (record_usage code user date db).2.usage =
        db.usage ++ [{ reagent_code := code, user := user, used_date := date }] ∧
      (record_usage code user date db).2.reagents = db.reagents ∧
      user ∈ (record_usage code user date db).2.users ∧
      (user ∈ db.users → (record_usage code user date db).2.users = db.users) ∧
      (user ∉ db.users → (record_usage code user date db).2.users = db.users ++ [user]) ∧
      (db.users.Nodup → (record_usage code user date db).2.users.Nodup)) := by
  constructor
  · intro h
    simp [record_usage, h]
  · intro h
    have hr : record_usage code user date db =
        (.ok, { db with
          usage := db.usage ++ [{ reagent_code := code, user := user, used_date := date }],
          users := if user ∈ db.users then db.users else db.users ++ [user] }) := by
      simp [record_usage, h]
    rw [hr]
    refine ⟨rfl, rfl, rfl, ?_, ?_, ?_, ?_⟩
    · by_cases hu : user ∈ db.users <;> simp [hu]
    · intro hu; simp [hu]
    · intro hu; simp [hu]
    · intro hnd
      by_cases hu : user ∈ db.users
      · simpa [hu] using hnd
      · simp only [if_neg hu]
        exact hnd.append (List.nodup_singleton user)
          (fun a ha hb => hu (by rw [List.mem_singleton] at hb; exact hb ▸ ha))

/-- Witness for C3: the unregistered code `99999999-999` is rejected with the
ledger untouched, and a resolving code inserts and records the new user. -/
theorem C3_record_usage_spec_witness :
    record_usage "99999999-999" "u" "2024-06-15" sampleDB = (.unknownReagent, sampleDB) ∧
      (record_usage "20240615-001" "u" "2024-06-15" sampleDB).1 = .ok ∧
      (record_usage "20240615-001" "u" "2024-06-15" sampleDB).2.users = ["u"] := by
  refine ⟨(C3_record_usage_spec "99999999-999" "u" "2024-06-15" sampleDB).1 (by decide),
    ((C3_record_usage_spec "20240615-001" "u" "2024-06-15" sampleDB).2 (by decide)).1, ?_⟩
  have h := (((((C3_record_usage_spec "20240615-001" "u" "2024-06-15"
    sampleDB).2 (by decide)).2).2).2).2.2.1 (by decide)
  rw [h]
  rfl

/-- C4: a processed frame whose decode yields at least one payload terminates
the session at once with exactly the first decoded payload as the result —
whatever the remaining payloads `rest` of that frame are — the dialog is
accepted, the device is released, the timer is stopped, and any frames offered
afterwards are not acquired (the state no longer changes). -/
theorem C4_first_match_wins (s : CamState) (f : Frame) (p : String) (rest : List String)
    (hok : f.ok = true) (hdec : f.decoded = p :: rest) :
    (next_frame f s).qr_payload = some p ∧
    (next_frame f s).status = .accepted ∧
    (next_frame f s).timerActive = false ∧
    (next_frame f s).deviceOpen = false ∧
    ∀ fs : List Frame, runFrames fs (next_frame f s) = next_frame f s := by
  have hn : next_frame f s = acceptDialog { s with qr_payload := some p } := by
    simp [next_frame, hok, hdec]
  rw [hn]
  refine ⟨rfl, rfl, rfl, rfl, ?_⟩
  intro fs
  cases fs with
  | nil => rfl
  | cons g gs => simp [runFrames, acceptDialog, closeEvent]

/-- Witness for C4: a frame carrying two payloads ends the session with the
first one, and a later frame does not change the state. -/
theorem C4_first_match_wins_witness :
    (next_frame { ok := true, decoded := ["p1", "p2"] } initialCam).qr_payload = some "p1" ∧
    runFrames [{ ok := true, decoded := ["p3"] }]
        (next_frame { ok := true, decoded := ["p1", "p2"] } initialCam) =
      next_frame { ok := true, decoded := ["p1", "p2"] } initialCam := by
  have h := C4_first_match_wins initialCam { ok := true, decoded := ["p1", "p2"] }
    "p1" ["p2"] rfl rfl
  exact ⟨h.1, h.2.2.2.2 [{ ok := true, decoded := ["p3"] }]⟩

/-- C5: from any state that still holds the device, every terminal path — the
close event itself, `accept()` on detection, and Escape (reject) — releases
the device and stops the timer, incrementing the release counter exactly once;
a second overlapping close event changes nothing (release happens exactly
once), and with the device free a subsequent session opens successfully. -/
theorem C5_release_exactly_once (s : CamState) (hdev : s.deviceOpen = true) :
    (closeEvent s).deviceOpen = false ∧
    (closeEvent s).timerActive = false ∧
    (closeEvent s).releaseCount = s.releaseCount + 1 ∧
    closeEvent (closeEvent s) = closeEvent s ∧
    (acceptDialog s).deviceOpen = false ∧
    (acceptDialog s).timerActive = false ∧
    (acceptDialog s).releaseCount = s.releaseCount + 1 ∧
    closeEvent (acceptDialog s) = acceptDialog s ∧
    (keyPressEvent true s).deviceOpen = false ∧
    (keyPressEvent true s).timerActive = false ∧
    (keyPressEvent true s).releaseCount = s.releaseCount + 1 ∧
    closeEvent (keyPressEvent true s) = keyPressEvent true s ∧
    initSession true = .ok initialCam := by
  simp [closeEvent, acceptDialog, rejectDialog, keyPressEvent, initSession, hdev]

/-- Witness for C5: from the freshly opened state, closing releases once and
a repeated close is inert. -/
theorem C5_release_exactly_once_witness :
    (closeEvent initialCam).releaseCount = 1 ∧
    closeEvent (closeEvent initialCam) = closeEvent initialCam ∧
    (acceptDialog initialCam).deviceOpen = false := by
  have h := C5_release_exactly_once initialCam rfl
  exact ⟨h.2.2.1, h.2.2.2.1, h.2.2.2.2.1⟩

/-- C6: when the camera cannot be opened, session construction yields the
capture-unavailable error and no session state at all — no device held, no
timer started, no frame ever requested — and `search_by_qr` surfaces exactly
that condition to the operator before any capture. -/
theorem C6_device_error_terminal :
    initSession false = .error "カメラを開けませんでした" ∧
    (∀ s : CamState, initSession false ≠ .ok s) ∧
    (∀ (accepted : Bool) (payload : Option String),
      search_by_qr false accepted payload = .cameraError "カメラを開けませんでした") := by
  refine ⟨rfl, ?_, ?_⟩
  · intro s h
    simp [initSession] at h
  · intro accepted payload
    rfl

/-- Witness for C6: the failed-open outcome at concrete arguments. -/
theorem C6_device_error_terminal_witness :
    search_by_qr false true (some "管理番号:X") = .cameraError "カメラを開けませんでした" :=
  C6_device_error_terminal.2.2 true (some "管理番号:X")

/-- C7: decoding the image produced by encoding a payload yields exactly the
one-element sequence holding that payload; `encode` is a function of the
payload alone (deterministic, no injected metadata). -/
theorem C7_codec_roundtrip (p : String) : decode (encode p) = [p] := by
  have h1 : decode (encode p)
      = [String.mk ((p.data.map charRow).map (fun row => Char.ofNat (bitsToNat row)))] := by
    simp [encode, decode]
  have hrow : ∀ c : Char, Char.ofNat (bitsToNat (charRow c)) = c := fun c => by
    rw [bitsToNat_charRow, Char.ofNat_toNat]
  have hmap : ∀ l : List Char,
      (l.map charRow).map (fun row => Char.ofNat (bitsToNat row)) = l := by
    intro l
    induction l with
    | nil => rfl
    | cons c t ih => simp only [List.map_cons, hrow, ih]
  rw [h1, hmap p.data]

/-- Witness for C7: the round trip at the payload actually carried by the
application's symbols. -/
theorem C7_codec_roundtrip_witness :
    decode (encode "管理番号:20240615-001") = ["管理番号:20240615-001"] :=
  C7_codec_roundtrip "管理番号:20240615-001"

/-- C8: with 999 or more reagents already dated `D`, the generated sequence
field widens to at least 4 characters — Python's `:03d` is a minimum width,
nothing is truncated or wrapped — and for any two stores the generated code
determines the same-date count unambiguously. -/
theorem C8_sequence_widens (D : String) (db : DB)
    (h : 999 ≤ (db.reagents.filter (codeMatchesDate D)).length) :
    4 ≤ (format03 ((db.reagents.filter (codeMatchesDate D)).length + 1)).length ∧
    ∀ db' : DB, (generate_code D db).1 = (generate_code D db').1 →
      (db.reagents.filter (codeMatchesDate D)).length
        = (db'.reagents.filter (codeMatchesDate D)).length := by
  constructor
  · exact format03_length_of_ge _ (by omega)
  · intro db' hEq
    have hEq' : (D ++ "-") ++ format03 ((db.reagents.filter (codeMatchesDate D)).length + 1)
        = (D ++ "-") ++ format03 ((db'.reagents.filter (codeMatchesDate D)).length + 1) := hEq
    have := format03_injective _ _ (string_append_right_inj _ _ _ hEq')
    omega

/-- Witness for C8: at 999 same-date rows the next sequence field is 4
characters wide. -/
theorem C8_sequence_widens_witness :
    4 ≤ (format03 ((db999.reagents.filter (codeMatchesDate "20240615")).length + 1)).length := by
  refine (C8_sequence_widens "20240615" db999 ?_).1
  have hlen : db999.reagents.filter (codeMatchesDate "20240615")
      = List.replicate 999
        { name := "Acetone", code := "20240615-001", location := "冷蔵庫", qrImage := [] } :=
    filter_replicate_of_pos _ _ _ (by decide)
  rw [hlen, List.length_replicate]

/-- C9 counterexample: the claim says the code taken from an accepted payload
is the text after the first colon of the first marker line; for the payload
`"管理番号 X "` — whose single line starts with the marker but has no colon —
the source takes the whole line stripped (`line.split(":", 1)[-1]` is the
entire line when no colon is present), not the text after a colon. -/
theorem C9_extraction_counterexample :
    extractCode "管理番号 X " = some "管理番号 X" ∧
    claimExtractCode "管理番号 X " = some "" ∧
    extractCode "管理番号 X " ≠ claimExtractCode "管理番号 X " := by
  refine ⟨by decide, by decide, by decide⟩

/-- C9 amended: a payload is accepted for lookup exactly when some line starts
with the marker `管理番号`; the code taken is the first such line's
`split(":", 1)[-1]` — the text after the first colon, or the entire line when
it has no colon — stripped of surrounding whitespace; a payload with no marker
line is reported as the unrecognized-symbol outcome (distinct from a camera
error) and no lookup runs. -/
theorem C9_extraction_amended (payload : String) :
    (extractCode payload = none ↔
      ∀ line ∈ splitOnChar '\n' payload.data, ¬ codeMarker.isPrefixOf line) ∧
    (∀ line, (splitOnChar '\n' payload.data).find? (fun l => codeMarker.isPrefixOf l)
        = some line →
      extractCode payload = some (String.mk (stripChars (splitColonLast line)))) ∧
    (∀ line cs, afterColonOnce line = some cs → splitColonLast line = cs) ∧
    (∀ line, afterColonOnce line = none → splitColonLast line = line) ∧
    (payload ≠ "" → extractCode payload = none →
      search_by_qr true true (some payload) = .unrecognized) ∧
    (∀ code, payload ≠ "" → extractCode payload = some code →
      search_by_qr true true (some payload) = .searched code) := by
  refine ⟨?_, ?_, ?_, ?_, ?_, ?_⟩
  · rw [extractCode, findCodeLine_eq_find, Option.map_eq_none', List.find?_eq_none]
  · intro line hline
    rw [extractCode, findCodeLine_eq_find, hline]
    rfl
  · intro line cs hcs
    rw [splitColonLast, hcs]
  · intro line hnone
    rw [splitColonLast, hnone]
  · intro hne hnone
    simp [search_by_qr, hne, hnone]
  · intro code hne hsome
    simp [search_by_qr, hne, hsome]

/-- Witness for C9: a two-line payload whose second line carries the marker
resolves to the code after the colon (stripped), and the search runs on it. -/
theorem C9_extraction_amended_witness :
    extractCode "名前:A\n管理番号: 20240615-001" = some "20240615-001" ∧
    search_by_qr true true (some "名前:A\n管理番号: 20240615-001")
      = .searched "20240615-001" := by
  have h := (C9_extraction_amended "名前:A\n管理番号: 20240615-001").2.1
    "管理番号: 20240615-001".data (by decide)
  have hx : extractCode "名前:A\n管理番号: 20240615-001" = some "20240615-001" := by
    rw [h]; decide
  exact ⟨hx, ((C9_extraction_amended "名前:A\n管理番号: 20240615-001").2.2.2.2.2)
    "20240615-001" (by decide) hx⟩

/-- C10: a failed frame acquisition (`cap.read()` returns `ok = False`) leaves
the session state exactly as it was — still capturing, device held, timer
running, no result set — so a transient read failure never ends a capture. -/
theorem C10_failed_read_no_change (s : CamState) (f : Frame) (hok : f.ok = false) :
    next_frame f s = s := by
  simp [next_frame, hok]

/-- Witness for C10: a failed read in the fresh session changes nothing, even
when the (unread) frame would have decoded. -/
theorem C10_failed_read_no_change_witness :
    next_frame { ok := false, decoded := ["p"] } initialCam = initialCam :=
  C10_failed_read_no_change initialCam { ok := false, decoded := ["p"] } rfl

end ReagentQr
